import Mathlib

/-!
Verification of the cortical projection engine of `vbrain`
(`src/vbrain/elements/transformations/SourcesTransform.py`).

Numeric arrays of the source are embedded over `ℚ`.  The source computes
Euclidean distances with `np.sqrt`; since `√` is strictly monotone on the
nonnegative reals, every comparison of distances in the source is embedded
as the equivalent comparison of squared distances.  The only place an actual
distance value is needed is the linear falloff weight `1 - eucl/radius`;
there the distance is computed by `qsqrt`, the exact rational square root
(exact whenever the squared distance is the square of a rational, which
covers every concrete input used below).
-/

namespace Vbrain

/-- A 3D point (one row of an `(N, 3)` numpy array). -/
abbrev Vec3 : Type := ℚ × ℚ × ℚ

/-- Default vertex used for out-of-range list lookups (never reached when
array lengths agree, as they do in the source). -/
def v0 : Vec3 := (0, 0, 0)

/-- Embeds `np.sign` on a scalar: -1, 0 or 1. -/
def qsign (q : ℚ) : ℤ :=
  if 0 < q then 1 else if q < 0 then -1 else 0

/-- Squared Euclidean distance: `np.square(vert - xyz).sum(1)` before the
`np.sqrt` of `_proximal_vertices` / `_closest_vertex` (lines 150, 164). -/
def dist2 (a b : Vec3) : ℚ :=
  (a.1 - b.1) ^ 2 + (a.2.1 - b.2.1) ^ 2 + (a.2.2 - b.2.2) ^ 2

/-- Embeds `np.sqrt` on a nonnegative rational: exact when the argument is
the square of a rational (the case in every statement that uses the value;
comparisons of distances are embedded on squares instead). -/
def qsqrt (q : ℚ) : ℚ :=
  (Nat.sqrt q.num.toNat : ℚ) / (Nat.sqrt q.den : ℚ)

/-- Modelled from the spec: `normalize` (from `vbrain.utils`, a module not
under `src/`) clips/normalizes a value into `[tomin, tomax]`: "distance 0 →
weight 1, distance == radius → weight 0, clipped/normalized into [0,1] even
if floating point noise pushes slightly outside" (spec section 4.3). -/
def normalize (x tomin tomax : ℚ) : ℚ :=
  max tomin (min tomax x)

/-- The selection condition of `_proximal_vertices` (line 154):
`eucl <= radius & (sign(vert[:,0]) == sign(xyz[0]))` unless `contribute`.
Since `eucl = √(dist2) ≥ 0`, `eucl ≤ radius ↔ 0 ≤ radius ∧ dist2 ≤ radius²`. -/
def proximalCond (xyz : Vec3) (radius : ℚ) (contribute : Bool) (v : Vec3) : Bool :=
  (decide (0 ≤ radius) && decide (dist2 v xyz ≤ radius * radius))
    && (contribute || decide (qsign v.1 = qsign xyz.1))

/-- Embeds `_proximal_vertices` (lines 143-157): the indices of vertices
within `radius` of `xyz` (restricted to the hemisphere of `xyz` unless
`contribute`), together with their distances. -/
def _proximal_vertices (vert : List Vec3) (xyz : Vec3) (radius : ℚ)
    (contribute : Bool) : List ℕ × List ℚ :=
  let idx := (List.range vert.length).filter
    (fun j => proximalCond xyz radius contribute (vert.getD j v0))
  (idx, idx.map (fun j => qsqrt (dist2 (vert.getD j v0) xyz)))

/-- The falloff factor of `_get_mask` (lines 135-136):
`fact = normalize(1 - eucl/radius, tomin=0.0, tomax=1)`, as a function of the
squared distance. -/
def falloffWeight (radius d2 : ℚ) : ℚ :=
  normalize (1 - qsqrt d2 / radius) 0 1

/-- Embeds `np.where(data.mask == False)[0]` (line 127): indices of the
unmasked (active) sources. -/
def unmaskedIdx (smask : List Bool) : List ℕ :=
  (List.range smask.length).filter (fun k => decide (smask.getD k true = false))

/-- One source's update of the proportion array, `prop[idx] += 1`
(line 138), expressed pointwise: the fancy-indexed increment at the indices
of `_proximal_vertices` is the conditional increment at every index
satisfying `proximalCond`. -/
def accumProp (vert : List Vec3) (radius : ℚ) (contribute : Bool) (xyzk : Vec3)
    (p : ℕ → ℤ) : ℕ → ℤ :=
  fun j => if proximalCond xyzk radius contribute (vert.getD j v0) then p j + 1 else p j

/-- One source's update of the accumulation array,
`mask[idx] += data[k]*fact` (line 137), expressed pointwise. -/
def accumMask (vert : List Vec3) (radius : ℚ) (contribute : Bool) (xyzk : Vec3)
    (datak : ℚ) (m : ℕ → ℚ) : ℕ → ℚ :=
  fun j => if proximalCond xyzk radius contribute (vert.getD j v0)
           then m j + datak * falloffWeight radius (dist2 (vert.getD j v0) xyzk)
           else m j

/-- The body of the accumulation loop of `_get_mask` (lines 130-138) for the
source of index `k`. -/
def accumStep (vert : List Vec3) (radius : ℚ) (contribute : Bool)
    (xyz : List Vec3) (data : List ℚ) (pm : (ℕ → ℤ) × (ℕ → ℚ)) (k : ℕ) :
    (ℕ → ℤ) × (ℕ → ℚ) :=
  (accumProp vert radius contribute (xyz.getD k v0) pm.1,
   accumMask vert radius contribute (xyz.getD k v0) (data.getD k 0) pm.2)

/-- Embeds `_get_mask` (lines 118-139).  Arrays of length `nv` are built by
sampling the pointwise state on `List.range nv`.  The third component records
the successive `self.progressbar.setValue(100*k/N)` calls (line 131); note the
source uses `k`, the index of the source in the full source array, not the
loop counter `i` of `enumerate`. -/
def _get_mask (nv : ℕ) (vert : List Vec3) (xyz : List Vec3) (data : List ℚ)
    (smask : List Bool) (set_to : ℤ) (radius : ℚ) (contribute : Bool) :
    List ℤ × List ℚ × List ℚ :=
  let prop0 : ℕ → ℤ := if set_to = 0 then fun _ => 0 else fun _ => set_to
  let mask0 : ℕ → ℚ := fun _ => 0
  let idxu := unmaskedIdx smask
  let N := idxu.length
  let pm := idxu.foldl (accumStep vert radius contribute xyz data) (prop0, mask0)
  ((List.range nv).map pm.1, (List.range nv).map pm.2,
   idxu.map (fun k => (100 * (k : ℚ)) / (N : ℚ)))

/-- The number of active (unmasked) sources whose proximal-vertex set
contains vertex `j` — the "number of contributing sources" of the spec. -/
def countContrib (vert : List Vec3) (xyz : List Vec3) (smask : List Bool)
    (radius : ℚ) (contribute : Bool) (j : ℕ) : ℕ :=
  ((unmaskedIdx smask).filter
    (fun k => proximalCond (xyz.getD k v0) radius contribute (vert.getD j v0))).length

/-- The `np.divide(mask, prop)` step of `cortical_projection` (line 74),
applied to the result of `_get_mask(..., set_to=1, contribute=False)`
(lines 71-72).  With `set_to = 1` every entry of `prop` is at least 1, so the
division never divides by zero. -/
def projectionValues (nv : ℕ) (vert : List Vec3) (xyz : List Vec3)
    (data : List ℚ) (smask : List Bool) (radius : ℚ) : List ℚ :=
  let r := _get_mask nv vert xyz data smask 1 radius false
  List.zipWith (fun (m : ℚ) (p : ℤ) => m / (p : ℚ)) r.2.1 r.1

/-- Squared norm of a point: `np.square(xyz).sum()` before the `np.sqrt` of
`_isInside` (line 182). -/
def norm2 (p : Vec3) : ℚ :=
  p.1 ^ 2 + p.2.1 ^ 2 + p.2.2 ^ 2

/-- Embeds `_closest_vertex` (lines 160-171): the indices at which the
distance to `xyz` is minimal (ties kept), intersected with the hemisphere
condition unless `contribute`.  `eucl == eucl.min()` is embedded as
`dist2 == min dist2`, equivalent by strict monotonicity of `√` on `[0, ∞)`. -/
def _closest_vertex (vert : List Vec3) (xyz : Vec3) (contribute : Bool) :
    List ℕ :=
  let d2 := vert.map (fun v => dist2 v xyz)
  let mn := d2.foldr min (d2.headD 0)
  (List.range vert.length).filter
    (fun j => decide (d2.getD j 0 = mn)
      && (contribute || decide (qsign (vert.getD j v0).1 = qsign xyz.1)))

/-- Embeds `_isInside` (lines 174-185): compares the distance of `xyz` from
the origin with `np.sqrt(np.square(vert[idx, :]).sum())`, the square root of
the sum of the squared coordinates of ALL vertices returned by
`_closest_vertex` (the whole tied index array).  The `<` on square roots is
embedded as `<` on the squared quantities (both nonnegative). -/
def _isInside (vert : List Vec3) (xyz : Vec3) (contribute : Bool) : Bool :=
  let idx := _closest_vertex vert xyz contribute
  decide (norm2 xyz < (idx.map (fun j => norm2 (vert.getD j v0))).sum)

/-- Division producing `none` where IEEE division of the source would produce
NaN/Inf (denominator 0); `_rescale_cmap` is the one place this can happen. -/
def fdiv (a b : ℚ) : Option ℚ :=
  if b = 0 then none else some (a / b)

/-- Embeds `_rescale_cmap` (lines 191-201).  `non_zero = cort != val`; the
non-zero entries are shifted by the subset minimum, divided by the
post-subtraction subset maximum and scaled into `[to_min, to_max]`; the other
entries are returned unchanged.  The outer `Option` is `none` when the
non-zero subset is empty (the source's `.min()` of an empty array raises);
an inner entry is `none` when the division produced NaN (`0/0`, the
degenerate all-equal case). -/
def _rescale_cmap (cort : List ℚ) (to_min to_max val : ℚ) :
    Option (List (Option ℚ) × List Bool) :=
  let non_zero := cort.map (fun c => decide (c ≠ val))
  let sub := cort.filter (fun c => decide (c ≠ val))
  match sub with
  | [] => none
  | c :: cs =>
    let m := cs.foldl min c
    let M := (cs.foldl max c) - m
    some (cort.map (fun x => if x = val then some x
            else (fdiv (x - m) M).map (fun y => y * (to_max - to_min) + to_min)),
          non_zero)

/-- The source set (`self.sources`): coordinates (`xyz`, `None` when no
sources were configured), the per-source data values and the boolean
visibility mask of the masked array `self.sources.data` (`True` = hidden). -/
structure Sources where
  xyz : Option (List Vec3)
  data : List ℚ
  mask : List Bool
deriving DecidableEq, Repr

/-- The mutable state of the `SourcesTransform` god object that the claims
observe.  UI sinks are recorded as data: `warnings` collects `warn(...)`
messages, `mesh_colors` the per-vertex array last handed to the surface mesh,
`sources_updated`/`text_updated` whether `self.sources.update()` /
`self.sources.text_update()` ran.  `current_mask` entries are `Option ℚ`
because the rescale step can produce NaN. -/
structure STState where
  radius : ℚ
  sources : Sources
  atlas_nv : ℕ
  atlas_vert : List Vec3
  current_mask : Option (List (Option ℚ))
  current_non_zero : Option (List Bool)
  mesh_colors : Option (List (Option ℚ))
  warnings : List String
  sources_updated : Bool
  text_updated : Bool
deriving DecidableEq, Repr

/-- Embeds `s_display` (lines 21-54) as a state transformer; the result is
`none` when the source would raise (selectors that index `self.sources.xyz`
while it is `None`).  After the selector branches, `self.sources.update()`
and `self.sources.text_update()` are always executed (lines 53-54). -/
def s_display (select : String) (st : STState) : Option STState :=
  let newMask : Option (List Bool) :=
    if select = "all" then some (List.replicate st.sources.mask.length false)
    else if select = "none" then some (List.replicate st.sources.mask.length true)
    else if select = "left" ∨ select = "right" then
      match st.sources.xyz with
      | none => none
      | some xs =>
        -- idx = xyz[:, 0] >= 0 (resp. <= 0); mask[idx] = True; mask[~idx] = False
        some (if select = "left" then xs.map (fun p => decide (0 ≤ p.1))
              else xs.map (fun p => decide (p.1 ≤ 0)))
    else if select = "inside" ∨ select = "outside" then
      match st.sources.xyz with
      | none => none
      | some xs =>
        -- mask[k] = ~isInside (inside) or isInside (outside)
        some (if select = "inside" then
                xs.map (fun p => ! _isInside st.atlas_vert p false)
              else xs.map (fun p => _isInside st.atlas_vert p false))
    else some st.sources.mask
  newMask.map (fun m =>
    { st with sources := { st.sources with mask := m },
              sources_updated := true, text_updated := true })

/-- Minimum of the unmasked data entries: `self.sources.data.min()` of the
masked array (masked entries are ignored; junk 0 on an empty selection). -/
def maskedMin (data : List ℚ) (smask : List Bool) : ℚ :=
  let sub := (unmaskedIdx smask).map (fun k => data.getD k 0)
  match sub with
  | [] => 0
  | c :: cs => cs.foldl min c

/-- Maximum of the unmasked data entries: `self.sources.data.max()`. -/
def maskedMax (data : List ℚ) (smask : List Bool) : ℚ :=
  let sub := (unmaskedIdx smask).map (fun k => data.getD k 0)
  match sub with
  | [] => 0
  | c :: cs => cs.foldl max c

/-- Modelled from the spec: `_array2cmap` (lines 204-219) maps the array
through the colormap (`array2colormap`/`slider2opacity` from `vbrain.utils`,
not under `src/`) and hands the resulting per-vertex colors to the surface
mesh; the spec's ColorMapper "output feeds directly into the external
SurfaceMesh's vertex-color update".  It is modelled as recording the handed
per-vertex array in `mesh_colors`. -/
def _array2cmap (st : STState) (x : List (Option ℚ)) : STState :=
  { st with mesh_colors := some x }

/-- The warning message of `cortical_projection`/`cortical_repartition`
(lines 88, 111). -/
def noSourcesMsg : String :=
  "No sources detected. Use s_xyz input parameter to define source's coordinates"

/-- Embeds `cortical_projection` (lines 65-89): when coordinates exist, run
`_get_mask(..., set_to=1, contribute=False)`, divide the accumulated mask by
`prop`, rescale between the data min/max, hand the result to the mesh and
save it as `current_mask`/`current_non_zero`; otherwise only `warn(...)`.
The result is `none` when the rescale step raises (empty non-zero subset). -/
def cortical_projection (st : STState) : Option STState :=
  match st.sources.xyz with
  | some xyz =>
    let r := _get_mask st.atlas_nv st.atlas_vert xyz st.sources.data
      st.sources.mask 1 st.radius false
    let cort_mask := List.zipWith (fun (m : ℚ) (p : ℤ) => m / (p : ℚ)) r.2.1 r.1
    match _rescale_cmap cort_mask (maskedMin st.sources.data st.sources.mask)
        (maskedMax st.sources.data st.sources.mask) 0 with
    | none => none
    | some rc =>
      let st1 := _array2cmap st rc.1
      some { st1 with current_mask := some rc.1, current_non_zero := some rc.2 }
  | none => some { st with warnings := st.warnings ++ [noSourcesMsg] }

/-- Embeds `cortical_repartition` (lines 93-112): when coordinates exist, run
`_get_mask(..., set_to=0, contribute=False)`, hand the raw proportion array
to the mesh and save it with `non_zero = prop != 0`; otherwise only
`warn(...)`. -/
def cortical_repartition (st : STState) : Option STState :=
  match st.sources.xyz with
  | some xyz =>
    let r := _get_mask st.atlas_nv st.atlas_vert xyz st.sources.data
      st.sources.mask 0 st.radius false
    let prop := r.1
    let non_zero := prop.map (fun p => decide (p ≠ 0))
    let st1 := _array2cmap st (prop.map (fun p => some (p : ℚ)))
    some { st1 with current_mask := some (prop.map (fun p => some (p : ℚ))),
                    current_non_zero := some non_zero }
  | none => some { st with warnings := st.warnings ++ [noSourcesMsg] }

/-- The attributes set by `__init__` (lines 11-13). -/
structure SourcesTransformInit where
  radius : ℚ
  current_mask : Option (List (Option ℚ))
deriving DecidableEq, Repr

/-- Embeds `__init__` (lines 11-13).  The source line
`self.radius = t_radius=10.0` is a chained assignment `self.radius = t_radius = 10.0`:
it rebinds the local `t_radius` to `10.0` and stores `10.0` in `self.radius`,
ignoring the value passed for the `t_radius` argument. -/
def SourcesTransform_init (t_radius : ℚ) : SourcesTransformInit :=
  { radius := 10, current_mask := none }

/-! Helper lemmas. -/

theorem getD_range_map {α : Type} (f : ℕ → α) (nv j : ℕ) (d : α) :
    ((List.range nv).map f).getD j d = if j < nv then f j else d := by
  by_cases h : j < nv
  · have h1 : ((List.range nv).map f)[j]? = some (f j) := by
      rw [List.getElem?_map, List.getElem?_range h]
      rfl
    simp [List.getD_eq_getElem?_getD, h1, h]
  · have h1 : ((List.range nv).map f)[j]? = none := by
      rw [List.getElem?_eq_none]
      simpa using Nat.not_lt.mp h
    simp [List.getD_eq_getElem?_getD, h1, h]

theorem foldl_accumStep_fst (vert : List Vec3) (radius : ℚ) (contribute : Bool)
    (xyz : List Vec3) (data : List ℚ) (ks : List ℕ) (p : ℕ → ℤ) (m : ℕ → ℚ)
    (j : ℕ) :
    (ks.foldl (accumStep vert radius contribute xyz data) (p, m)).1 j
      = p j + ((ks.filter (fun k =>
          proximalCond (xyz.getD k v0) radius contribute (vert.getD j v0))).length : ℤ) := by
  induction ks generalizing p m with
  | nil => simp
  | cons k ks ih =>
    simp only [List.foldl_cons, List.filter_cons, accumStep]
    rw [ih]
    simp only [accumProp]
    by_cases h : proximalCond (xyz.getD k v0) radius contribute (vert.getD j v0)
    · rw [if_pos h, if_pos h, List.length_cons]
      push_cast
      ring
    · rw [if_neg h, if_neg h]

theorem qsqrt_zero : qsqrt 0 = 0 := by
  norm_num [qsqrt]

theorem qsqrt_mul_self (r : ℚ) (hr : 0 ≤ r) : qsqrt (r * r) = r := by
  unfold qsqrt
  rw [Rat.mul_self_num, Rat.mul_self_den]
  have hnum : (0 : ℤ) ≤ r.num := Rat.num_nonneg.mpr hr
  have h1 : (r.num * r.num).toNat = r.num.natAbs * r.num.natAbs := by
    rw [← Int.natAbs_mul_self, Int.toNat_ofNat]
  rw [h1, Nat.sqrt_eq, Nat.sqrt_eq]
  have h2 : (r.num.natAbs : ℚ) = (r.num : ℚ) := by
    rw [Int.cast_natAbs, abs_of_nonneg]
    exact_mod_cast hnum
  rw [h2]
  exact Rat.num_div_den r

/-! Claim C1. -/

/-- C1 counterexample: two active sources at distance 0 from the single
vertex, with values 2 and 3.  `cortical_projection` (via
`_get_mask(..., set_to=1, ...)`) produces a proportion count of 3, not 2, at
that vertex, and a normalized projection of `weight*(2+3)/3 = 5/3`, not
`weight*(2+3)/2 = 5/2` (the falloff weight is 1 at distance 0). -/
theorem C1_counterexample :
    projectionValues 1 [((1:ℚ), 0, 0)] [((1:ℚ), 0, 0), ((1:ℚ), 0, 0)] [2, 3]
        [false, false] 10 = [5/3] ∧
    (_get_mask 1 [((1:ℚ), 0, 0)] [((1:ℚ), 0, 0), ((1:ℚ), 0, 0)] [2, 3]
        [false, false] 1 10 false).1 = [3] ∧
    ¬ ((5:ℚ)/3 = (2 + 3)/2) := by
  refine ⟨?_, ?_, by norm_num⟩
  · norm_num [projectionValues, _get_mask, unmaskedIdx, accumStep, accumProp,
      accumMask, proximalCond, dist2, qsign, falloffWeight, qsqrt, normalize,
      v0, List.range_succ]
  · norm_num [_get_mask, unmaskedIdx, accumStep, accumProp, accumMask,
      proximalCond, dist2, qsign, falloffWeight, qsqrt, normalize, v0,
      List.range_succ]

/-- C1 (amended): for every vertex reached by at least one active source, the
proportion entry computed by `cortical_projection`'s call
`_get_mask(..., set_to=1, ...)` equals ONE PLUS the number of contributing
sources (the array is initialized to 1 to avoid dividing by zero), and the
projected value equals the accumulated weighted sum divided by that `1 + count`. -/
theorem C1_projection_divides_by_one_plus_count
    (nv : ℕ) (vert : List Vec3) (xyz : List Vec3) (data : List ℚ)
    (smask : List Bool) (radius : ℚ) (j : ℕ) (hj : j < nv)
    (hreach : 1 ≤ countContrib vert xyz smask radius false j) :
    (_get_mask nv vert xyz data smask 1 radius false).1.getD j 0
        = 1 + (countContrib vert xyz smask radius false j : ℤ) ∧
    (projectionValues nv vert xyz data smask radius).getD j 0
        = (_get_mask nv vert xyz data smask 1 radius false).2.1.getD j 0
          / (1 + (countContrib vert xyz smask radius false j : ℚ)) := by
  have hprop : ∀ k : ℕ,
      ((unmaskedIdx smask).foldl (accumStep vert radius false xyz data)
        ((fun _ => (1:ℤ)), (fun _ => (0:ℚ)))).1 k
        = 1 + (countContrib vert xyz smask radius false k : ℤ) :=
    fun k => foldl_accumStep_fst vert radius false xyz data (unmaskedIdx smask)
      (fun _ => 1) (fun _ => 0) k
  constructor
  · rw [_get_mask]
    norm_num [getD_range_map, hj]
    rw [hprop j]
  · have hif : (if (1:ℤ) = 0 then (fun _ : ℕ => (0:ℤ)) else fun _ : ℕ => 1)
        = fun _ : ℕ => (1:ℤ) := by norm_num
    simp only [projectionValues, _get_mask, hif]
    rw [List.zipWith_map, List.zipWith_same]
    simp only [getD_range_map, hj, if_pos]
    rw [hprop j]
    push_cast
    ring

/-- C1 witness: the amended statement instantiated at a single active source
at distance 0 from the single vertex. -/
theorem C1_witness :
    (0 < 1 ∧
      1 ≤ countContrib [((1:ℚ), 0, 0)] [((1:ℚ), 0, 0)] [false] 10 false 0) ∧
    ((_get_mask 1 [((1:ℚ), 0, 0)] [((1:ℚ), 0, 0)] [2] [false] 1 10 false).1.getD 0 0
        = 1 + (countContrib [((1:ℚ), 0, 0)] [((1:ℚ), 0, 0)] [false] 10 false 0 : ℤ) ∧
      (projectionValues 1 [((1:ℚ), 0, 0)] [((1:ℚ), 0, 0)] [2] [false] 10).getD 0 0
        = (_get_mask 1 [((1:ℚ), 0, 0)] [((1:ℚ), 0, 0)] [2] [false] 1 10 false).2.1.getD 0 0
          / (1 + (countContrib [((1:ℚ), 0, 0)] [((1:ℚ), 0, 0)] [false] 10 false 0 : ℚ))) :=
  ⟨⟨Nat.one_pos,
    by norm_num [countContrib, unmaskedIdx, proximalCond, dist2, qsign, v0, List.range_succ]⟩,
   C1_projection_divides_by_one_plus_count 1 [((1:ℚ), 0, 0)] [((1:ℚ), 0, 0)]
     [2] [false] 10 0 Nat.one_pos
     (by norm_num [countContrib, unmaskedIdx, proximalCond, dist2, qsign, v0, List.range_succ])⟩

/-! Claim C2. -/

/-- C2: the falloff weight applied in the accumulation loop is the clamp into
`[0, 1]` of the linear function `1 - dist/radius`: it is 1 at distance 0,
lies in `[0, 1]` everywhere, equals `1 - d/r` for `0 ≤ d ≤ r`, and for every
radius `r > 0` a single active source whose vertex `j` lies at distance
exactly `r` (squared distance `r * r`) gets weight 0 there, so the
accumulated mask at `j` stays 0. -/
theorem C2_falloff_weight_linear_clamped (r : ℚ) (hr : 0 < r)
    (vert : List Vec3) (xyz : Vec3) (dval : ℚ) (j : ℕ)
    (hd : dist2 (vert.getD j v0) xyz = r * r) (d2 d : ℚ)
    (hd0 : 0 ≤ d) (hdr : d ≤ r) :
    falloffWeight r (dist2 (vert.getD j v0) xyz) = 0 ∧
    (_get_mask vert.length vert [xyz] [dval] [false] 1 r false).2.1.getD j 0 = 0 ∧
    falloffWeight r 0 = 1 ∧
    (0 ≤ falloffWeight r d2 ∧ falloffWeight r d2 ≤ 1) ∧
    falloffWeight r (d * d) = 1 - d / r := by
  have hw0 : falloffWeight r (r * r) = 0 := by
    unfold falloffWeight normalize
    rw [qsqrt_mul_self r hr.le, div_self hr.ne']
    norm_num
  have hw1 : falloffWeight r 0 = 1 := by
    unfold falloffWeight normalize
    rw [qsqrt_zero]
    norm_num
  have hbounds : ∀ x : ℚ, 0 ≤ normalize x 0 1 ∧ normalize x 0 1 ≤ 1 := by
    intro x
    unfold normalize
    exact ⟨le_max_left 0 _, max_le (by norm_num) (min_le_left 1 x)⟩
  have hlin : falloffWeight r (d * d) = 1 - d / r := by
    unfold falloffWeight normalize
    rw [qsqrt_mul_self d hd0]
    have h1 : d / r ≤ 1 := (div_le_one hr).mpr hdr
    have h2 : 0 ≤ d / r := div_nonneg hd0 hr.le
    rw [min_eq_right (by linarith), max_eq_right (by linarith)]
  refine ⟨by rw [hd]; exact hw0, ?_, hw1, ⟨(hbounds _).1, (hbounds _).2⟩, hlin⟩
  have hu : unmaskedIdx [false] = [0] := rfl
  simp only [_get_mask, hu, List.foldl_cons, List.foldl_nil, accumStep,
    accumMask, List.getD_cons_zero, getD_range_map]
  split_ifs with h1 h2
  · rw [hd, hw0]
    ring
  · rfl
  · rfl

/-- C2 witness: radius 2, one source at `(4,0,0)`, one vertex at `(2,0,0)`
(distance exactly 2). -/
theorem C2_witness :
    ((0:ℚ) < 2 ∧ dist2 ([(((2:ℚ)), 0, 0)].getD 0 v0) ((4:ℚ), 0, 0) = 2 * 2 ∧
      (0:ℚ) ≤ 1 ∧ (1:ℚ) ≤ 2) ∧
    (falloffWeight 2 (dist2 ([(((2:ℚ)), 0, 0)].getD 0 v0) ((4:ℚ), 0, 0)) = 0 ∧
     (_get_mask [(((2:ℚ)), 0, 0)].length [(((2:ℚ)), 0, 0)] [(((4:ℚ)), 0, 0)]
        [7] [false] 1 2 false).2.1.getD 0 0 = 0 ∧
     falloffWeight 2 0 = 1 ∧
     (0 ≤ falloffWeight 2 5 ∧ falloffWeight 2 5 ≤ 1) ∧
     falloffWeight 2 (1 * 1) = 1 - 1 / 2) :=
  ⟨⟨by norm_num, by norm_num [dist2, v0], by norm_num, by norm_num⟩,
   C2_falloff_weight_linear_clamped 2 (by norm_num) [(((2:ℚ)), 0, 0)]
     ((4:ℚ), 0, 0) 7 0 (by norm_num [dist2, v0]) 5 1 (by norm_num) (by norm_num)⟩

/-! Concrete sample states used by witnesses and counterexamples. -/

/-- A sample state: two sources, one on each hemisphere. -/
def exState : STState :=
  { radius := 10,
    sources := { xyz := some [((1:ℚ), 0, 0), ((-1:ℚ), 0, 0)],
                 data := [2, 3], mask := [true, true] },
    atlas_nv := 1, atlas_vert := [((1:ℚ), 0, 0)],
    current_mask := none, current_non_zero := none, mesh_colors := none,
    warnings := [], sources_updated := false, text_updated := false }

/-- A sample state with one source strictly inside the surface. -/
def exStateIn : STState :=
  { exState with
    sources := { xyz := some [((1/2 : ℚ), 0, 0)], data := [2], mask := [true] } }

/-- A sample state with no source coordinates configured. -/
def exStateNoXyz : STState :=
  { exState with
    sources := { xyz := none, data := [2, 3], mask := [false, false] },
    mesh_colors := some [some 1], current_mask := some [some 1],
    current_non_zero := some [true], warnings := ["w0"] }

/-- The visibility mask of an `s_display` result. -/
def maskOf (o : Option STState) : Option (List Bool) :=
  o.map (fun s => s.sources.mask)

theorem s_display_left_eq (st : STState) (xs : List Vec3)
    (h : st.sources.xyz = some xs) :
    maskOf (s_display "left" st) = some (xs.map (fun p => decide (0 ≤ p.1))) := by
  simp [maskOf, s_display, h]

theorem s_display_right_eq (st : STState) (xs : List Vec3)
    (h : st.sources.xyz = some xs) :
    maskOf (s_display "right" st) = some (xs.map (fun p => decide (p.1 ≤ 0))) := by
  simp [maskOf, s_display, h]

theorem s_display_inside_eq (st : STState) (xs : List Vec3)
    (h : st.sources.xyz = some xs) :
    maskOf (s_display "inside" st)
      = some (xs.map (fun p => ! _isInside st.atlas_vert p false)) := by
  simp [maskOf, s_display, h]

theorem s_display_outside_eq (st : STState) (xs : List Vec3)
    (h : st.sources.xyz = some xs) :
    maskOf (s_display "outside" st)
      = some (xs.map (fun p => _isInside st.atlas_vert p false)) := by
  simp [maskOf, s_display, h]

/-! Claim C3. -/

/-- C3 counterexample: after `s_display('left')` the source with first
coordinate `1 ≥ 0` has mask flag `true` (hidden), not `false` (visible) as
the claim states, and the source at `-1` is the unmasked one. -/
theorem C3_counterexample :
    exState.sources.xyz = some [((1:ℚ), 0, 0), ((-1:ℚ), 0, 0)] ∧
    maskOf (s_display "left" exState) = some [true, false] ∧
    ¬ maskOf (s_display "left" exState) = some [false, true] := by
  refine ⟨rfl, ?_, ?_⟩ <;> decide

/-- C3 (amended): after `s_display('left')` every source with first
coordinate `≥ 0` is MASKED (flag true, hidden) and every other source is
unmasked; after `s_display('right')` every source with first coordinate
`≤ 0` is masked and every other source is unmasked. -/
theorem C3_left_right_mask_geq_zero (st : STState) (xs : List Vec3)
    (h : st.sources.xyz = some xs) :
    maskOf (s_display "left" st) = some (xs.map (fun p => decide (0 ≤ p.1))) ∧
    maskOf (s_display "right" st) = some (xs.map (fun p => decide (p.1 ≤ 0))) :=
  ⟨s_display_left_eq st xs h, s_display_right_eq st xs h⟩

/-- C3 witness: the amended statement at the two-source sample state. -/
theorem C3_witness :
    exState.sources.xyz = some [((1:ℚ), 0, 0), ((-1:ℚ), 0, 0)] ∧
    (maskOf (s_display "left" exState)
        = some ([((1:ℚ), 0, 0), ((-1:ℚ), 0, 0)].map (fun p => decide (0 ≤ p.1))) ∧
     maskOf (s_display "right" exState)
        = some ([((1:ℚ), 0, 0), ((-1:ℚ), 0, 0)].map (fun p => decide (p.1 ≤ 0)))) :=
  ⟨rfl, C3_left_right_mask_geq_zero exState [((1:ℚ), 0, 0), ((-1:ℚ), 0, 0)] rfl⟩

/-! Claim C4. -/

/-- C4 counterexample: the source at `(1/2, 0, 0)` is classified INSIDE by
`_isInside` (closest vertex `(1, 0, 0)` is farther from the origin), yet
after `s_display('inside')` it is unmasked — the claim predicts that only
sources classified outside are unmasked. -/
theorem C4_counterexample :
    _isInside [((1:ℚ), 0, 0)] ((1/2 : ℚ), 0, 0) false = true ∧
    maskOf (s_display "inside" exStateIn) = some [false] ∧
    ¬ maskOf (s_display "inside" exStateIn) = some [true] := by
  have hin : _isInside [((1:ℚ), 0, 0)] ((1/2 : ℚ), 0, 0) false = true := by
    norm_num [_isInside, _closest_vertex, dist2, norm2, qsign, v0, List.range_succ]
  have hm : maskOf (s_display "inside" exStateIn) = some [false] := by
    rw [s_display_inside_eq exStateIn [((1/2 : ℚ), 0, 0)] rfl,
      show exStateIn.atlas_vert = [((1:ℚ), 0, 0)] from rfl,
      List.map_cons, List.map_nil, hin]
    rfl
  exact ⟨hin, hm, by simp [hm]⟩

/-- C4 (amended): after `s_display('inside')` a source is unmasked (flag
false) if and only if `_isInside` classifies it as INSIDE the surface —
`mask[k] = ~isInside`; after `s_display('outside')` a source is unmasked if
and only if `_isInside` classifies it as outside — `mask[k] = isInside`. -/
theorem C4_inside_outside_mask_polarity (st : STState) (xs : List Vec3)
    (h : st.sources.xyz = some xs) :
    maskOf (s_display "inside" st)
        = some (xs.map (fun p => ! _isInside st.atlas_vert p false)) ∧
    maskOf (s_display "outside" st)
        = some (xs.map (fun p => _isInside st.atlas_vert p false)) :=
  ⟨s_display_inside_eq st xs h, s_display_outside_eq st xs h⟩

/-- C4 witness: the amended statement at the one-source sample state. -/
theorem C4_witness :
    exStateIn.sources.xyz = some [((1/2 : ℚ), 0, 0)] ∧
    (maskOf (s_display "inside" exStateIn)
        = some ([((1/2 : ℚ), 0, 0)].map
            (fun p => ! _isInside exStateIn.atlas_vert p false)) ∧
     maskOf (s_display "outside" exStateIn)
        = some ([((1/2 : ℚ), 0, 0)].map
            (fun p => _isInside exStateIn.atlas_vert p false))) :=
  ⟨rfl, C4_inside_outside_mask_polarity exStateIn [((1/2 : ℚ), 0, 0)] rfl⟩

/-! Claim C7. -/

/-- C7: when `self.sources.xyz is None`, both `cortical_projection` and
`cortical_repartition` only append the warning — the mesh colors and the
saved `current_mask`/`current_non_zero` are untouched and no exception is
raised. -/
theorem C7_missing_xyz_warns_and_skips (st : STState)
    (h : st.sources.xyz = none) :
    cortical_projection st
        = some { st with warnings := st.warnings ++ [noSourcesMsg] } ∧
    cortical_repartition st
        = some { st with warnings := st.warnings ++ [noSourcesMsg] } ∧
    (cortical_projection st).map
        (fun s => (s.mesh_colors, s.current_mask, s.current_non_zero))
        = some (st.mesh_colors, st.current_mask, st.current_non_zero) := by
  refine ⟨?_, ?_, ?_⟩ <;> simp [cortical_projection, cortical_repartition, h]

/-- C7 witness: the statement at the sample state without coordinates. -/
theorem C7_witness :
    exStateNoXyz.sources.xyz = none ∧
    (cortical_projection exStateNoXyz
        = some { exStateNoXyz with
                  warnings := exStateNoXyz.warnings ++ [noSourcesMsg] } ∧
     cortical_repartition exStateNoXyz
        = some { exStateNoXyz with
                  warnings := exStateNoXyz.warnings ++ [noSourcesMsg] } ∧
     (cortical_projection exStateNoXyz).map
        (fun s => (s.mesh_colors, s.current_mask, s.current_non_zero))
        = some (exStateNoXyz.mesh_colors, exStateNoXyz.current_mask,
                exStateNoXyz.current_non_zero)) :=
  ⟨rfl, C7_missing_xyz_warns_and_skips exStateNoXyz rfl⟩

/-! Claim C10. -/

/-- C10: for every selector other than the six recognized ones, `s_display`
leaves the visibility mask (indeed the whole source set) unchanged, raises
nothing, and still performs the `sources.update()` and
`sources.text_update()` re-render side effects. -/
theorem C10_unknown_selector_silent_noop (select : String) (st : STState)
    (h : select ∉ (["all", "none", "left", "right", "inside", "outside"] : List String)) :
    s_display select st
        = some { st with sources_updated := true, text_updated := true } := by
  simp only [List.mem_cons, List.mem_singleton, not_or] at h
  obtain ⟨h1, h2, h3, h4, h5, h6⟩ := h
  simp [s_display, h1, h2, h3, h4, h5, h6]

/-- C10 witness: the unrecognized selector `"foo"` at the sample state. -/
theorem C10_witness :
    ("foo" : String) ∉ (["all", "none", "left", "right", "inside", "outside"] : List String) ∧
    s_display "foo" exState
        = some { exState with sources_updated := true, text_updated := true } :=
  ⟨by decide, C10_unknown_selector_silent_noop "foo" exState (by decide)⟩

/-! Claim C5. -/

/-- C5 (code bug): on the degenerate input `[2, 2, 0]` (all entries that
differ from the predicate value 0 are equal) `_rescale_cmap` divides by the
zero post-subtraction maximum: every non-zero entry becomes NaN (`none`),
with no guard and no fallback value. -/
theorem C5_degenerate_rescale_produces_nan :
    _rescale_cmap [2, 2, 0] 0 1 0
        = some ([none, none, some 0], [true, true, false]) ∧
    ¬ ([(none : Option ℚ), none, some 0].all (fun y => y.isSome)) := by
  refine ⟨?_, by decide⟩
  norm_num [_rescale_cmap, fdiv]

/-! Claim C6. -/

/-- C6 (code bug): `__init__` ignores its `t_radius` argument — the chained
assignment `self.radius = t_radius=10.0` stores `10.0` whatever value is
passed, so constructing with `t_radius = 5` still yields radius 10. -/
theorem C6_init_ignores_t_radius :
    (SourcesTransform_init 5).radius = 10 ∧ ((10:ℚ) ≠ 5) ∧
    (SourcesTransform_init 5).current_mask = none := by
  refine ⟨rfl, by norm_num, rfl⟩

/-! Claim C8. -/

/-- C8: `_rescale_cmap` leaves every entry equal to the predicate value
untouched (it is returned with its original value and a `false` non-zero
flag); only the non-zero entries are shifted, divided and scaled. -/
theorem C8_rescale_preserves_val_entries
    (cort : List ℚ) (to_min to_max val : ℚ) (res : List (Option ℚ) × List Bool)
    (hres : _rescale_cmap cort to_min to_max val = some res)
    (j : ℕ) (hj : j < cort.length) (hval : cort.getD j 0 = val) :
    res.1.getD j (some 0) = some val ∧ res.2.getD j true = false := by
  rw [_rescale_cmap] at hres
  cases hsub : cort.filter (fun c => decide (c ≠ val)) with
  | nil =>
    rw [hsub] at hres
    simp at hres
  | cons c cs =>
    rw [hsub] at hres
    simp only [Option.some.injEq] at hres
    have h1 : res.1 = cort.map (fun x => if x = val then some x
        else (fdiv (x - cs.foldl min c) (cs.foldl max c - cs.foldl min c)).map
          (fun y => y * (to_max - to_min) + to_min)) := by rw [← hres]
    have h2 : res.2 = cort.map (fun c => decide (c ≠ val)) := by rw [← hres]
    have hjv : cort[j] = val := by rw [← List.getD_eq_getElem cort 0 hj, hval]
    constructor
    · rw [h1, List.getD_eq_getElem _ _ (by simpa using hj), List.getElem_map,
        hjv, if_pos rfl]
    · rw [h2, List.getD_eq_getElem _ _ (by simpa using hj), List.getElem_map,
        hjv]
      simp

/-- C8 witness: the statement at `[7, 4, 5, 7]` with predicate value 7. -/
theorem C8_witness :
    (_rescale_cmap [7, 4, 5, 7] 0 1 7
        = some ([some 7, some 0, some 1, some 7], [false, true, true, false]) ∧
      (0:ℕ) < 4 ∧ ([7, 4, 5, 7] : List ℚ).getD 0 0 = 7) ∧
    (([some 7, some 0, some 1, some 7] : List (Option ℚ)),
      ([false, true, true, false] : List Bool)).1.getD 0 (some 0) = some 7 ∧
    (([some 7, some 0, some 1, some 7] : List (Option ℚ)),
      ([false, true, true, false] : List Bool)).2.getD 0 true = false :=
  ⟨⟨by norm_num [_rescale_cmap, fdiv], by norm_num, by norm_num⟩,
   C8_rescale_preserves_val_entries [7, 4, 5, 7] 0 1 7
     ([some 7, some 0, some 1, some 7], [false, true, true, false])
     (by norm_num [_rescale_cmap, fdiv]) 0 (by norm_num) (by norm_num)⟩

/-! Claim C9. -/

/-- C9 (code bug): the progress value reported inside `_get_mask` is
`100*k/N` where `k` is the source's index in the FULL source array and `N`
the number of unmasked sources; with three sources of which only the last is
active, the single report is 200, outside the 0–100 range the claim
states. -/
theorem C9_progress_report_exceeds_100 :
    (_get_mask 1 [v0] [v0, v0, v0] [1, 1, 1] [true, true, false]
        1 10 false).2.2 = [200] ∧
    ¬ ((200:ℚ) ≤ 100) := by
  refine ⟨?_, by norm_num⟩
  norm_num [_get_mask, unmaskedIdx, List.range_succ]

end Vbrain
